import Mathlib

/-!
# SwingMetrics: recording buffer, sensor callbacks, session button and CSV export

Shallow embedding of `src/swingmetrics.c`.

* The C type `float` is a parameter: a carrier `F` with the few operations the program
  uses on it (`float_model`: the zero value, `+`, the literal `0.05f`, the `%f`
  conversion).  Every definition of the program is written over an arbitrary
  `float_model`.  Two instances are given: `binary32`, the IEEE single-precision
  arithmetic the program runs on, and `exact_arith`, the rationals with exact addition
  and `0.05 = 1/20`.
* `float swing_data[64000][7]` is a total map `Nat → Nat → F` together with the C object
  bounds: an access with row index `≥ 64000` (or column `≥ 7`) is undefined behaviour in
  C and is the outcome `Fault.out_of_bounds` here, and so is an `sprintf` whose text does
  not fit `char data_string[256]`.  The source itself contains no bounds test; the tests
  live in `set_swing_data`, `get_swing_data` and `sprintf_row`.
* The `int` cursors `accel_count`, `gyro_count` are naturals: they start at `0`
  (`appdata_s ad = {0,}`), are only ever incremented, and every store faults
  from `64000` on, so no defined run reaches a negative or wrapped value.
* Sensor handles are `Option sensor_type_e`, `none` being the null handle.
-/

namespace SwingMetrics

/-- Number of rows of `float swing_data[64000][7]`. -/
def C : Nat := 64000

/-- Number of columns of `float swing_data[64000][7]`. -/
def COLUMNS : Nat := 7

/-- Size of `char data_string[256]` in `save_data`. -/
def DATA_STRING_SIZE : Nat := 256

/-- Outcomes on which the C program has no defined behaviour: a store or read outside
an array object. -/
inductive Fault where
  | out_of_bounds : Fault
  deriving DecidableEq, Repr

/-- The operations on C `float` values the program uses: the value of a zero-initialised
`float`, the addition of `ad->timer += 0.05f`, the literal `0.05f`, and the `%f`
conversion of `sprintf`. -/
structure float_model (F : Type) where
  zero : F
  add : F → F → F
  tick : F
  printf_f : F → String

/-- The two sensor kinds the program asks for (`SENSOR_ACCELEROMETER`, `SENSOR_GYROSCOPE`). -/
inductive sensor_type_e where
  | SENSOR_ACCELEROMETER : sensor_type_e
  | SENSOR_GYROSCOPE : sensor_type_e
  deriving DecidableEq, Repr

/-- The part of `sensor_event_s` the callbacks read: `event->values[k]`. -/
structure sensor_event_s (F : Type) where
  values : Nat → F

/-- The sensor and data fields of `struct appdata`; the window and conformant objects
are not represented, the button is represented by its label in `world`. -/
structure appdata_s (F : Type) where
  accelerometer : Option sensor_type_e
  accelerometer_listener : Option sensor_type_e
  gyroscope : Option sensor_type_e
  gyroscope_listener : Option sensor_type_e
  timer : F
  swing_data : Nat → Nat → F
  accel_count : Nat
  gyro_count : Nat

/-- The initial value `appdata_s ad = {0,}` of `main`. -/
def appdata_zero {F : Type} (fm : float_model F) : appdata_s F :=
  { accelerometer := none
    accelerometer_listener := none
    gyroscope := none
    gyroscope_listener := none
    timer := fm.zero
    swing_data := fun _ _ => fm.zero
    accel_count := 0
    gyro_count := 0 }

/-- The assignment `ad->swing_data[i][j] = v`. -/
def set_swing_data {F : Type} (ad : appdata_s F) (i j : Nat) (v : F) :
    Except Fault (appdata_s F) :=
  if i < C ∧ j < COLUMNS then
    .ok { ad with swing_data := fun r c => if r = i ∧ c = j then v else ad.swing_data r c }
  else
    .error Fault.out_of_bounds

/-- The read `(ad->swing_data)[i][j]`. -/
def get_swing_data {F : Type} (ad : appdata_s F) (i j : Nat) : Except Fault F :=
  if i < C ∧ j < COLUMNS then .ok (ad.swing_data i j) else .error Fault.out_of_bounds

/-- The callback `accelerometer_cb` (source lines 126-136). -/
def accelerometer_cb {F : Type} (fm : float_model F) (event : sensor_event_s F)
    (ad : appdata_s F) : Except Fault (appdata_s F) := do
  let ad ← set_swing_data ad ad.accel_count 0 ad.timer
  let ad ← set_swing_data ad ad.accel_count 1 (event.values 0)
  let ad ← set_swing_data ad ad.accel_count 2 (event.values 1)
  let ad ← set_swing_data ad ad.accel_count 3 (event.values 2)
  let ad := { ad with accel_count := ad.accel_count + 1 }
  pure { ad with timer := fm.add ad.timer fm.tick }

/-- The callback `gyroscope_cb` (source lines 142-150). -/
def gyroscope_cb {F : Type} (event : sensor_event_s F) (ad : appdata_s F) :
    Except Fault (appdata_s F) := do
  let ad ← set_swing_data ad ad.gyro_count 4 (event.values 0)
  let ad ← set_swing_data ad ad.gyro_count 5 (event.values 1)
  let ad ← set_swing_data ad ad.gyro_count 6 (event.values 2)
  pure { ad with gyro_count := ad.gyro_count + 1 }

/-- One sensor event as the platform hands it to the registered callback. -/
inductive sensor_input (F : Type) where
  | accelerometer : sensor_event_s F → sensor_input F
  | gyroscope : sensor_event_s F → sensor_input F

/-- The platform calling the callback registered for the event's sensor. -/
def dispatch {F : Type} (fm : float_model F) (ad : appdata_s F) :
    sensor_input F → Except Fault (appdata_s F)
  | .accelerometer event => accelerometer_cb fm event ad
  | .gyroscope event => gyroscope_cb event ad

/-- Events delivered one at a time, in arrival order, on the single dispatch thread. -/
def deliver {F : Type} (fm : float_model F) (ad : appdata_s F) (evs : List (sensor_input F)) :
    Except Fault (appdata_s F) :=
  evs.foldlM (dispatch fm) ad

/-- The accelerometer events of a delivery, in arrival order. -/
def accel_events {F : Type} : List (sensor_input F) → List (sensor_event_s F)
  | [] => []
  | .accelerometer e :: evs => e :: accel_events evs
  | .gyroscope _ :: evs => accel_events evs

/-- The gyroscope events of a delivery, in arrival order. -/
def gyro_events {F : Type} : List (sensor_input F) → List (sensor_event_s F)
  | [] => []
  | .accelerometer _ :: evs => gyro_events evs
  | .gyroscope e :: evs => e :: gyro_events evs

/-- An event with `values[0..2] = (x, y, z)`; the callbacks read no other slot. -/
def event_xyz {F : Type} (x y z : F) : sensor_event_s F :=
  { values := fun k => if k = 0 then x else if k = 1 then y else z }

/-! ## Closed form of a fault-free recording -/

/-- The value of `timer` after `n` executions of `ad->timer += 0.05f` from zero. -/
def timer_after {F : Type} (fm : float_model F) : Nat → F
  | 0 => fm.zero
  | n + 1 => fm.add (timer_after fm n) fm.tick

/-- Axis `k` of the `i`-th event of a stream, the zero value when the stream has no
`i`-th event. -/
def axis {F : Type} (fm : float_model F) (es : List (sensor_event_s F)) (i k : Nat) : F :=
  match es[i]? with
  | some e => e.values k
  | none => fm.zero

/-- The state after the accelerometer events `as` and the gyroscope events `gs`
have been recorded from `appdata_zero` (proved in `deliver_zero`). -/
def recorded {F : Type} (fm : float_model F) (as gs : List (sensor_event_s F)) : appdata_s F :=
  { appdata_zero fm with
    timer := timer_after fm as.length
    accel_count := as.length
    gyro_count := gs.length
    swing_data := fun i j =>
      if j = 0 then (if i < as.length then timer_after fm i else fm.zero)
      else if j = 1 then axis fm as i 0
      else if j = 2 then axis fm as i 1
      else if j = 3 then axis fm as i 2
      else if j = 4 then axis fm gs i 0
      else if j = 5 then axis fm gs i 1
      else if j = 6 then axis fm gs i 2
      else fm.zero }

/-! ## The two arithmetics -/

/-- The integer nearest to `n / d`, ties to the even one. -/
def round_half_even (n d : Nat) : Nat :=
  let q := n / d
  let r := n % d
  if 2 * r < d then q else if d < 2 * r then q + 1 else if q % 2 = 0 then q else q + 1

/-- The last `w` decimal digits of `n`, most significant first. -/
def digits_fixed : Nat → Nat → List Char
  | 0, _ => []
  | w + 1, n => digits_fixed w (n / 10) ++ [Nat.digitChar (n % 10)]

/-- The magnitude `|x|` in fixed notation with six digits after the point, rounded to
the nearest multiple of `10⁻⁶` (ties to even), as `%f` prints it. -/
def fixed6 (x : ℚ) : String :=
  let m := round_half_even (x.num.natAbs * 1000000) x.den
  Nat.repr (m / 1000000) ++ "." ++ String.mk (digits_fixed 6 (m % 1000000))

/-- Exact arithmetic: rational values, exact addition, `0.05f` taken as the decimal
`0.05`. -/
def exact_arith : float_model ℚ :=
  { zero := 0
    add := fun a b => a + b
    tick := 1 / 20
    printf_f := fun x => (if x < 0 then "-" else "") ++ fixed6 x }

/-- The number of halvings that take `n` below `2`, by recursion on `fuel`. -/
def halvings : Nat → Nat → Nat
  | 0, _ => 0
  | fuel + 1, n => if n < 2 then 0 else halvings fuel (n / 2) + 1

/-- The exponent `⌊log₂ n⌋` of a positive natural number (`0` for `n = 0`). -/
def nat_log2 (n : Nat) : Nat :=
  halvings n n

/-- The exponent `⌊log₂ |x|⌋` of a nonzero rational. -/
def floor_log2 (x : ℚ) : Int :=
  let n := x.num.natAbs
  let d := x.den
  let e0 : Int := (nat_log2 n : Int) - (nat_log2 d : Int)
  let below : Bool :=
    if 0 ≤ e0 then decide (n < 2 ^ e0.toNat * d) else decide (n * 2 ^ (-e0).toNat < d)
  if below then e0 - 1 else e0

/-- The multiple of `2 ^ k` nearest to `|x|`, ties to the even multiple. -/
def round_to_quantum (x : ℚ) (k : Int) : ℚ :=
  let m := round_half_even (x.num.natAbs * 2 ^ (-k).toNat) (x.den * 2 ^ k.toNat)
  ((m * 2 ^ k.toNat : Nat) : ℚ) / ((2 ^ (-k).toNat : Nat) : ℚ)

/-- The binary32 magnitude nearest to `|x|` (round to nearest, ties to even): 24
significant bits, least exponent `-126` (subnormals below).  Overflow to infinity is not
represented. -/
def round32 (x : ℚ) : ℚ :=
  if x = 0 then 0 else round_to_quantum x (max (floor_log2 x) (-126) - 23)

/-- A finite IEEE binary32 value: sign bit and magnitude (so `-0.0f` is a value of its
own).  Infinities and NaN are not represented. -/
structure float32 where
  negative : Bool
  magnitude : ℚ
  deriving DecidableEq

/-- The number a binary32 value stands for. -/
def float32.to_rat (x : float32) : ℚ :=
  if x.negative then -x.magnitude else x.magnitude

/-- The binary32 value nearest to a rational (how a decimal literal is read). -/
def float32.of_rat (q : ℚ) : float32 :=
  { negative := decide (q < 0), magnitude := round32 q }

/-- Binary32 addition, round to nearest: the exact sum rounded; an exact zero sum is
`-0.0f` only when both operands are negative. -/
def float32.add (a b : float32) : float32 :=
  let s := a.to_rat + b.to_rat
  if s = 0 then { negative := a.negative && b.negative, magnitude := 0 }
  else float32.of_rat s

/-- The `%f` conversion of a binary32 value: a `-` when the sign bit is set, then the
magnitude in fixed notation with six decimals. -/
def float32.printf_f (x : float32) : String :=
  (if x.negative then "-" else "") ++ fixed6 x.magnitude

instance (n : Nat) : OfNat float32 n := ⟨float32.of_rat n⟩

/-- The arithmetic the program runs on: IEEE binary32, `0.05f` being the binary32 value
nearest to `0.05`. -/
def binary32 : float_model float32 :=
  { zero := { negative := false, magnitude := 0 }
    add := float32.add
    tick := float32.of_rat (1 / 20)
    printf_f := float32.printf_f }

/-! ## CSV export -/

/-- The text `"%f, %f, %f, %f, %f, %f, %f,"` instantiated with row `i`. -/
def row_text {F : Type} (fm : float_model F) (ad : appdata_s F) (i : Nat) : String :=
  fm.printf_f (ad.swing_data i 0) ++ ", " ++ fm.printf_f (ad.swing_data i 1) ++ ", " ++
  fm.printf_f (ad.swing_data i 2) ++ ", " ++ fm.printf_f (ad.swing_data i 3) ++ ", " ++
  fm.printf_f (ad.swing_data i 4) ++ ", " ++ fm.printf_f (ad.swing_data i 5) ++ ", " ++
  fm.printf_f (ad.swing_data i 6) ++ ","

/-- The `sprintf(data_string, "%f, %f, %f, %f, %f, %f, %f,", …)` of `save_data`: the seven
reads of row `i`, then the formatting into `char data_string[256]`.  The text and its
terminating zero byte must fit the array; a longer text is stored past its end. -/
def sprintf_row {F : Type} (fm : float_model F) (ad : appdata_s F) (i : Nat) :
    Except Fault String := do
  let v0 ← get_swing_data ad i 0
  let v1 ← get_swing_data ad i 1
  let v2 ← get_swing_data ad i 2
  let v3 ← get_swing_data ad i 3
  let v4 ← get_swing_data ad i 4
  let v5 ← get_swing_data ad i 5
  let v6 ← get_swing_data ad i 6
  let text := fm.printf_f v0 ++ ", " ++ fm.printf_f v1 ++ ", " ++ fm.printf_f v2 ++ ", " ++
    fm.printf_f v3 ++ ", " ++ fm.printf_f v4 ++ ", " ++ fm.printf_f v5 ++ ", " ++
    fm.printf_f v6 ++ ","
  if text.utf8ByteSize < DATA_STRING_SIZE then pure text else .error Fault.out_of_bounds

/-- The file `/opt/usr/media/Documents/data.csv`: its content as the sequence of texts
written by the `fprintf` calls since it was last opened with `"w+"` (`none` while the
file does not exist), and how many times `save_data` has opened it. -/
structure filesystem where
  data_csv : Option (List String)
  opened : Nat
  deriving DecidableEq, Repr

/-- The loop `for (int i = 0; i < (ad->gyro_count); i++)` of `save_data`, with `n`
iterations left, the next index `i` and the stream content `fp` so far. -/
def save_data_loop {F : Type} (fm : float_model F) (ad : appdata_s F) :
    Nat → Nat → List String → Except Fault (List String)
  | 0, _, fp => .ok fp
  | n + 1, i, fp => do
    let data_string ← sprintf_row fm ad i
    save_data_loop fm ad n (i + 1) (fp ++ [data_string ++ "\n"])

/-- The function `save_data` (source lines 46-64).  `fopen` is taken to succeed, as the
code assumes (`fp` is never tested). -/
def save_data {F : Type} (fm : float_model F) (ad : appdata_s F) (fs : filesystem) :
    Except Fault filesystem := do
  let fp ← save_data_loop fm ad ad.gyro_count 0 []
  pure { data_csv := some fp, opened := fs.opened + 1 }

/-- Every row `save_data` formats fits `data_string`. -/
def rows_fit {F : Type} (fm : float_model F) (ad : appdata_s F) : Prop :=
  ∀ i, i < ad.gyro_count → (row_text fm ad i).utf8ByteSize < DATA_STRING_SIZE

/-! ## The session button -/

/-- The application together with the platform state its button callback acts on: the
label of `ad->button`, whether each listener has been started, and the file. -/
structure world (F : Type) where
  ad : appdata_s F
  button_text : String
  accelerometer_started : Bool
  gyroscope_started : Bool
  fs : filesystem

/-- The platform call `sensor_listener_start`; on a null listener it fails and changes
nothing (the result code is discarded by the caller). -/
def sensor_listener_start {F : Type} (listener : Option sensor_type_e) (w : world F) :
    world F :=
  match listener with
  | none => w
  | some .SENSOR_ACCELEROMETER => { w with accelerometer_started := true }
  | some .SENSOR_GYROSCOPE => { w with gyroscope_started := true }

/-- The platform call `sensor_listener_stop`; on a null listener it fails and changes
nothing. -/
def sensor_listener_stop {F : Type} (listener : Option sensor_type_e) (w : world F) :
    world F :=
  match listener with
  | none => w
  | some .SENSOR_ACCELEROMETER => { w with accelerometer_started := false }
  | some .SENSOR_GYROSCOPE => { w with gyroscope_started := false }

/-- The platform call `elm_object_text_set(button, text)`. -/
def elm_object_text_set {F : Type} (text : String) (w : world F) : world F :=
  { w with button_text := text }

/-- The first branch of `_button_click_cb` (source lines 75-77). -/
def button_start {F : Type} (w : world F) : world F :=
  let w := sensor_listener_start w.ad.accelerometer_listener w
  let w := sensor_listener_start w.ad.gyroscope_listener w
  elm_object_text_set "STOP" w

/-- The `else` branch of `_button_click_cb` (source lines 81-84). -/
def button_stop {F : Type} (fm : float_model F) (w : world F) : Except Fault (world F) := do
  let w := sensor_listener_stop w.ad.accelerometer_listener w
  let w := sensor_listener_stop w.ad.gyroscope_listener w
  let w := elm_object_text_set "START" w
  let fs ← save_data fm w.ad w.fs
  pure { w with fs := fs }

/-- The callback `_button_click_cb` (source lines 70-86). -/
def button_click_cb {F : Type} (fm : float_model F) (w : world F) : Except Fault (world F) :=
  if w.button_text = "START" then .ok (button_start w) else button_stop fm w

/-! ## Sensor registration -/

/-- What the device answers to the sensor framework: whether `sensor_is_supported`
reports a kind as supported, and whether `sensor_get_default_sensor` finds a sensor. -/
structure device where
  supported : sensor_type_e → Bool
  has_default : sensor_type_e → Bool

/-- The platform call `sensor_is_supported(type, &supported)`: the value stored. -/
def sensor_is_supported (d : device) (type : sensor_type_e) : Bool :=
  d.supported type

/-- The platform call `sensor_get_default_sensor(type, &sensor)`: the new value of
`sensor`, untouched when the call fails. -/
def sensor_get_default_sensor (d : device) (type : sensor_type_e)
    (sensor : Option sensor_type_e) : Option sensor_type_e :=
  if d.has_default type then some type else sensor

/-- The platform call `sensor_create_listener(sensor, &listener)`: the new value of
`listener`, untouched when `sensor` is null. -/
def sensor_create_listener (sensor listener : Option sensor_type_e) : Option sensor_type_e :=
  match sensor with
  | some type => some type
  | none => listener

/-- The function `register_accelerometer` (source lines 155-172).  The calls
`sensor_listener_set_event_cb` and `sensor_listener_set_option` configure the listener
inside the platform and change no field of `appdata_s`. -/
def register_accelerometer {F : Type} (d : device) (ad : appdata_s F) : appdata_s F :=
  let supported := sensor_is_supported d .SENSOR_ACCELEROMETER
  let ad := if !supported then ad else ad
  let ad := { ad with
    accelerometer := sensor_get_default_sensor d .SENSOR_ACCELEROMETER ad.accelerometer }
  { ad with
    accelerometer_listener := sensor_create_listener ad.accelerometer ad.accelerometer_listener }

/-- The function `register_gyroscope` (source lines 177-193); `supported` is the local
constant `false`, `sensor_is_supported` is not called. -/
def register_gyroscope {F : Type} (d : device) (ad : appdata_s F) : appdata_s F :=
  let supported := false
  let ad := if !supported then ad else ad
  let ad := { ad with gyroscope := sensor_get_default_sensor d .SENSOR_GYROSCOPE ad.gyroscope }
  { ad with gyroscope_listener := sensor_create_listener ad.gyroscope ad.gyroscope_listener }

/-- The state when `app_create` returns, for `main`'s zero-initialised `ad`: the button
labelled `"START"` by `create_base_gui`, both registrations done, no listener started. -/
def app_create {F : Type} (fm : float_model F) (d : device) (fs : filesystem) : world F :=
  { ad := register_gyroscope d (register_accelerometer d (appdata_zero fm))
    button_text := "START"
    accelerometer_started := false
    gyroscope_started := false
    fs := fs }

/-- What the running application lets its user observe: the button label and the file. -/
def visible {F : Type} (w : world F) : String × filesystem :=
  (w.button_text, w.fs)

/-- A device with both sensors. -/
def device_full : device :=
  { supported := fun _ => true, has_default := fun _ => true }

/-- A device whose gyroscope is reported unsupported and has no default sensor. -/
def device_no_gyroscope : device :=
  { supported := fun t => decide (t = .SENSOR_ACCELEROMETER)
    has_default := fun t => decide (t = .SENSOR_ACCELEROMETER) }

/-- A file system in which `data.csv` has not been written yet. -/
def fs_empty : filesystem :=
  { data_csv := none, opened := 0 }

/-! ## Sessions -/

/-- What can happen to the running application: a click on the button, or a sensor
event. -/
inductive input (F : Type) where
  | click : input F
  | sensor : sensor_input F → input F

/-- One step of the running application.  The platform hands a sensor event to the
callback only while the listener of that sensor is started. -/
def step {F : Type} (fm : float_model F) (w : world F) : input F → Except Fault (world F)
  | .click => button_click_cb fm w
  | .sensor (.accelerometer event) =>
    if w.accelerometer_started then do
      let ad ← accelerometer_cb fm event w.ad
      pure { w with ad := ad }
    else .ok w
  | .sensor (.gyroscope event) =>
    if w.gyroscope_started then do
      let ad ← gyroscope_cb event w.ad
      pure { w with ad := ad }
    else .ok w

/-- A sequence of steps, in order. -/
def run {F : Type} (fm : float_model F) (w : world F) (ins : List (input F)) :
    Except Fault (world F) :=
  ins.foldlM (step fm) w

theorem axis_snoc {F : Type} (fm : float_model F) (es : List (sensor_event_s F))
    (e : sensor_event_s F) (i k : Nat) :
    axis fm (es ++ [e]) i k = if i = es.length then e.values k else axis fm es i k := by
  unfold axis
  rcases Nat.lt_trichotomy i es.length with h | h | h
  · rw [List.getElem?_append_left h, if_neg (Nat.ne_of_lt h)]
  · subst h
    simp
  · rw [List.getElem?_append_right (Nat.le_of_lt h), if_neg (Nat.ne_of_gt h)]
    have h1 : es[i]? = none := List.getElem?_eq_none (Nat.le_of_lt h)
    have h2 : [e][i - es.length]? = none :=
      List.getElem?_eq_none (by simp; omega)
    rw [h1, h2]

theorem accelerometer_cb_recorded {F : Type} (fm : float_model F)
    (as gs : List (sensor_event_s F)) (e : sensor_event_s F) (h : as.length < C) :
    accelerometer_cb fm e (recorded fm as gs) = .ok (recorded fm (as ++ [e]) gs) := by
  have hc : (recorded fm as gs).accel_count < C := h
  simp only [accelerometer_cb, set_swing_data, COLUMNS, bind, Except.bind, pure, Except.pure]
  simp only [hc, true_and, Nat.reduceLT, if_true]
  congr 1
  simp only [recorded, appdata_zero, List.length_append, List.length_singleton, timer_after]
  congr 1
  funext i j
  simp only [axis_snoc]
  by_cases hi : i = as.length
  · subst hi
    by_cases h0 : j = 0
    · subst h0; simp
    by_cases h1 : j = 1
    · subst h1; simp
    by_cases h2 : j = 2
    · subst h2; simp
    by_cases h3 : j = 3
    · subst h3; simp
    simp [h0, h1, h2, h3]
  · have hlt : (i < as.length + 1) = (i < as.length) := by
      apply propext; omega
    simp [hi, hlt]

theorem gyroscope_cb_recorded {F : Type} (fm : float_model F)
    (as gs : List (sensor_event_s F)) (e : sensor_event_s F) (h : gs.length < C) :
    gyroscope_cb e (recorded fm as gs) = .ok (recorded fm as (gs ++ [e])) := by
  have hc : (recorded fm as gs).gyro_count < C := h
  simp only [gyroscope_cb, set_swing_data, COLUMNS, bind, Except.bind, pure, Except.pure]
  simp only [hc, true_and, Nat.reduceLT, if_true]
  congr 1
  simp only [recorded, appdata_zero, List.length_append, List.length_singleton]
  congr 1
  funext i j
  simp only [axis_snoc]
  by_cases hi : i = gs.length
  · subst hi
    by_cases h4 : j = 4
    · subst h4; simp
    by_cases h5 : j = 5
    · subst h5; simp
    by_cases h6 : j = 6
    · subst h6; simp
    simp [h4, h5, h6]
  · simp [hi]

theorem accel_events_append {F : Type} (xs ys : List (sensor_input F)) :
    accel_events (xs ++ ys) = accel_events xs ++ accel_events ys := by
  induction xs with
  | nil => rfl
  | cons x xs ih => cases x <;> simp [accel_events, ih]

theorem gyro_events_append {F : Type} (xs ys : List (sensor_input F)) :
    gyro_events (xs ++ ys) = gyro_events xs ++ gyro_events ys := by
  induction xs with
  | nil => rfl
  | cons x xs ih => cases x <;> simp [gyro_events, ih]

theorem accel_events_map_accelerometer {F : Type} (es : List (sensor_event_s F)) :
    accel_events (es.map sensor_input.accelerometer) = es := by
  induction es with
  | nil => rfl
  | cons e es ih => simp [accel_events, ih]

theorem accel_events_map_gyroscope {F : Type} (es : List (sensor_event_s F)) :
    accel_events (es.map sensor_input.gyroscope) = [] := by
  induction es with
  | nil => rfl
  | cons e es ih => simp [accel_events, ih]

theorem gyro_events_map_accelerometer {F : Type} (es : List (sensor_event_s F)) :
    gyro_events (es.map sensor_input.accelerometer) = [] := by
  induction es with
  | nil => rfl
  | cons e es ih => simp [gyro_events, ih]

theorem gyro_events_map_gyroscope {F : Type} (es : List (sensor_event_s F)) :
    gyro_events (es.map sensor_input.gyroscope) = es := by
  induction es with
  | nil => rfl
  | cons e es ih => simp [gyro_events, ih]

theorem recorded_nil {F : Type} (fm : float_model F) : recorded fm [] [] = appdata_zero fm := by
  simp only [recorded, appdata_zero, List.length_nil, timer_after]
  congr 1
  funext i j
  simp [axis]

theorem deliver_snoc {F : Type} (fm : float_model F) (ad : appdata_s F)
    (evs : List (sensor_input F)) (x : sensor_input F) :
    deliver fm ad (evs ++ [x]) = (deliver fm ad evs).bind (fun s => dispatch fm s x) := by
  simp only [deliver, List.foldlM_append]
  cases h : List.foldlM (dispatch fm) ad evs with
  | error err => simp [bind, Except.bind, pure, Except.pure]
  | ok s =>
    simp only [bind, Except.bind, pure, Except.pure, List.foldlM_cons, List.foldlM_nil]
    cases dispatch fm s x <;> rfl

/-- Any delivery that stays within capacity ends in the closed-form state. -/
theorem deliver_zero {F : Type} (fm : float_model F) (evs : List (sensor_input F))
    (ha : (accel_events evs).length ≤ C) (hg : (gyro_events evs).length ≤ C) :
    deliver fm (appdata_zero fm) evs
      = .ok (recorded fm (accel_events evs) (gyro_events evs)) := by
  induction evs using List.reverseRecOn with
  | nil => simp [deliver, accel_events, gyro_events, recorded_nil, pure, Except.pure]
  | append_singleton evs x ih =>
    rw [accel_events_append] at ha
    rw [gyro_events_append] at hg
    rw [List.length_append] at ha hg
    rw [deliver_snoc, ih (by omega) (by omega), accel_events_append, gyro_events_append]
    cases x with
    | accelerometer e =>
      simp only [accel_events, gyro_events, List.length_cons, List.length_nil] at ha hg
      simp only [Except.bind, dispatch, accel_events, gyro_events, List.append_nil]
      exact accelerometer_cb_recorded fm _ _ e (by omega)
    | gyroscope e =>
      simp only [accel_events, gyro_events, List.length_cons, List.length_nil] at ha hg
      simp only [Except.bind, dispatch, accel_events, gyro_events, List.append_nil]
      exact gyroscope_cb_recorded fm _ _ e (by omega)

/-! ### Capacity lemmas -/

theorem accelerometer_cb_full {F : Type} (fm : float_model F) (e : sensor_event_s F)
    (ad : appdata_s F) (h : ad.accel_count = C) :
    accelerometer_cb fm e ad = .error Fault.out_of_bounds := by
  simp [accelerometer_cb, set_swing_data, h, bind, Except.bind]

theorem gyroscope_cb_full {F : Type} (e : sensor_event_s F) (ad : appdata_s F)
    (h : ad.gyro_count = C) :
    gyroscope_cb e ad = .error Fault.out_of_bounds := by
  simp [gyroscope_cb, set_swing_data, h, bind, Except.bind]

theorem deliver_accelerometer_overflow {F : Type} (fm : float_model F)
    (es : List (sensor_event_s F)) (e : sensor_event_s F) (h : es.length = C) :
    deliver fm (appdata_zero fm)
        (es.map sensor_input.accelerometer ++ [sensor_input.accelerometer e])
      = .error Fault.out_of_bounds := by
  have ha : (accel_events (es.map sensor_input.accelerometer)).length ≤ C := by
    rw [accel_events_map_accelerometer]; exact Nat.le_of_eq h
  have hg : (gyro_events (es.map sensor_input.accelerometer)).length ≤ C := by
    rw [gyro_events_map_accelerometer]; exact Nat.zero_le C
  rw [deliver_snoc, deliver_zero fm _ ha hg, accel_events_map_accelerometer]
  show accelerometer_cb fm e (recorded fm es _) = _
  exact accelerometer_cb_full fm e _ h

theorem deliver_gyroscope_overflow {F : Type} (fm : float_model F)
    (es : List (sensor_event_s F)) (e : sensor_event_s F) (h : es.length = C) :
    deliver fm (appdata_zero fm)
        (es.map sensor_input.gyroscope ++ [sensor_input.gyroscope e])
      = .error Fault.out_of_bounds := by
  have ha : (accel_events (es.map sensor_input.gyroscope)).length ≤ C := by
    rw [accel_events_map_gyroscope]; exact Nat.zero_le C
  have hg : (gyro_events (es.map sensor_input.gyroscope)).length ≤ C := by
    rw [gyro_events_map_gyroscope]; exact Nat.le_of_eq h
  rw [deliver_snoc, deliver_zero fm _ ha hg, gyro_events_map_gyroscope]
  show gyroscope_cb e (recorded fm _ es) = _
  exact gyroscope_cb_full e _ h

/-! ### C1 -/

/-- C1 (evaluation at the failing input): with the cursor at capacity `C` the callbacks
are not refused with the state kept; they execute the store into row `C`, which lies
outside `swing_data`, so the outcome is the undefined out-of-bounds store.  This holds
for any state whose cursor is `C`, and in particular for the 64001st accelerometer
(gyroscope) event of a run from the zero-initialised state, in any float arithmetic. -/
theorem capacity_overflow_not_rejected {F : Type} (fm : float_model F) (ad : appdata_s F)
    (e : sensor_event_s F) :
    accelerometer_cb fm e { ad with accel_count := C } = .error Fault.out_of_bounds ∧
    gyroscope_cb e { ad with gyro_count := C } = .error Fault.out_of_bounds ∧
    deliver fm (appdata_zero fm) (List.replicate (C + 1) (sensor_input.accelerometer e))
      = .error Fault.out_of_bounds ∧
    deliver fm (appdata_zero fm) (List.replicate (C + 1) (sensor_input.gyroscope e))
      = .error Fault.out_of_bounds := by
  refine ⟨accelerometer_cb_full fm e _ rfl, gyroscope_cb_full e _ rfl, ?_, ?_⟩
  · rw [List.replicate_add, List.replicate_one, ← List.map_replicate]
    exact deliver_accelerometer_overflow fm _ e (List.length_replicate C e)
  · rw [List.replicate_add, List.replicate_one, ← List.map_replicate]
    exact deliver_gyroscope_overflow fm _ e (List.length_replicate C e)

/-! ### C5 -/

/-- C5: from the zero-initialised state, `N ≤ C` accelerometer events followed by
`M ≤ C` gyroscope events are all recorded without fault, and afterwards
`accel_count = min N C` and `gyro_count = min M C` (in any float arithmetic). -/
theorem counts_after_accel_then_gyro {F : Type} (fm : float_model F)
    (as gs : List (sensor_event_s F)) (hN : as.length ≤ C) (hM : gs.length ≤ C) :
    ∃ s, deliver fm (appdata_zero fm)
          (as.map sensor_input.accelerometer ++ gs.map sensor_input.gyroscope) = .ok s ∧
      s.accel_count = min as.length C ∧ s.gyro_count = min gs.length C := by
  have ha : accel_events (as.map sensor_input.accelerometer ++ gs.map sensor_input.gyroscope)
      = as := by
    simp [accel_events_append, accel_events_map_accelerometer, accel_events_map_gyroscope]
  have hg : gyro_events (as.map sensor_input.accelerometer ++ gs.map sensor_input.gyroscope)
      = gs := by
    simp [gyro_events_append, gyro_events_map_accelerometer, gyro_events_map_gyroscope]
  refine ⟨_, deliver_zero fm _ (by rw [ha]; exact hN) (by rw [hg]; exact hM), ?_, ?_⟩
  · rw [ha, Nat.min_eq_left hN]; rfl
  · rw [hg, Nat.min_eq_left hM]; rfl

/-- Witness for C5: three accelerometer events and two gyroscope events in binary32. -/
theorem counts_after_accel_then_gyro_witness :
    ∃ s, deliver binary32 (appdata_zero binary32)
          ([event_xyz 1 2 3, event_xyz 1 2 3, event_xyz 1 2 3].map sensor_input.accelerometer ++
            [event_xyz 4 5 6, event_xyz 4 5 6].map sensor_input.gyroscope) = .ok s ∧
      s.accel_count = min 3 C ∧ s.gyro_count = min 2 C :=
  counts_after_accel_then_gyro binary32
    [event_xyz 1 2 3, event_xyz 1 2 3, event_xyz 1 2 3] [event_xyz 4 5 6, event_xyz 4 5 6]
    (by decide) (by decide)

/-! ### C6 -/

theorem timer_after_exact (n : Nat) : timer_after exact_arith n = (n : ℚ) * 0.05 := by
  induction n with
  | zero => simp [timer_after, exact_arith]
  | succ n ih =>
    rw [timer_after, ih]
    simp only [exact_arith]
    push_cast
    norm_num
    ring

/-- C6: over exact arithmetic for the `0.05` step, from the zero-initialised state, after
`N ≤ C` accelerometer events column 0 of row `i` is `i * 0.05` for every `i < N`, so the
first `accel_count = N` timestamps start at `0` and advance by `0.05`, and
`timer = 0.05 * accel_count`. -/
theorem timestamps_arithmetic (as : List (sensor_event_s ℚ)) (h : as.length ≤ C) :
    ∃ s, deliver exact_arith (appdata_zero exact_arith) (as.map sensor_input.accelerometer)
        = .ok s ∧
      s.accel_count = as.length ∧
      (∀ i, i < as.length → s.swing_data i 0 = (i : ℚ) * 0.05) ∧
      (0 < as.length → s.swing_data 0 0 = 0) ∧
      (∀ i, i + 1 < as.length → s.swing_data (i + 1) 0 - s.swing_data i 0 = 0.05) ∧
      s.timer = 0.05 * (s.accel_count : ℚ) := by
  have ha : (accel_events (as.map sensor_input.accelerometer)).length ≤ C := by
    rw [accel_events_map_accelerometer]; exact h
  have hg : (gyro_events (as.map sensor_input.accelerometer)).length ≤ C := by
    rw [gyro_events_map_accelerometer]; exact Nat.zero_le C
  refine ⟨_, deliver_zero exact_arith _ ha hg, ?_, ?_, ?_, ?_, ?_⟩
  · rw [accel_events_map_accelerometer]; rfl
  · intro i hi
    rw [accel_events_map_accelerometer]
    simp only [recorded, if_true, hi, timer_after_exact]
  · intro h0
    rw [accel_events_map_accelerometer]
    simp only [recorded, if_true, h0, timer_after_exact]
    norm_num
  · intro i hi
    rw [accel_events_map_accelerometer]
    have hi2 : i < as.length := by omega
    simp only [recorded, if_true, hi, hi2, timer_after_exact]
    push_cast
    ring
  · rw [accel_events_map_accelerometer]
    simp only [recorded, timer_after_exact]
    ring

/-- Witness for C6: three accelerometer events. -/
theorem timestamps_arithmetic_witness :
    ∃ s, deliver exact_arith (appdata_zero exact_arith)
        ([event_xyz 1 2 3, event_xyz 1 2 3, event_xyz 1 2 3].map sensor_input.accelerometer)
          = .ok s ∧
      s.accel_count = 3 ∧
      (∀ i, i < 3 → s.swing_data i 0 = (i : ℚ) * 0.05) ∧
      (0 < 3 → s.swing_data 0 0 = 0) ∧
      (∀ i, i + 1 < 3 → s.swing_data (i + 1) 0 - s.swing_data i 0 = 0.05) ∧
      s.timer = 0.05 * (s.accel_count : ℚ) :=
  timestamps_arithmetic [event_xyz 1 2 3, event_xyz 1 2 3, event_xyz 1 2 3] (by decide)

/-! ### Callback results below capacity -/

theorem accelerometer_cb_ok {F : Type} (fm : float_model F) (e : sensor_event_s F)
    (ad : appdata_s F) (h : ad.accel_count < C) :
    accelerometer_cb fm e ad = .ok
      { ad with
        swing_data := fun r c =>
          if r = ad.accel_count ∧ c = 3 then e.values 2
          else if r = ad.accel_count ∧ c = 2 then e.values 1
          else if r = ad.accel_count ∧ c = 1 then e.values 0
          else if r = ad.accel_count ∧ c = 0 then ad.timer
          else ad.swing_data r c
        accel_count := ad.accel_count + 1
        timer := fm.add ad.timer fm.tick } := by
  simp only [accelerometer_cb, set_swing_data, COLUMNS, bind, Except.bind, pure, Except.pure,
    h, true_and, Nat.reduceLT, if_true]

theorem gyroscope_cb_ok {F : Type} (e : sensor_event_s F) (ad : appdata_s F)
    (h : ad.gyro_count < C) :
    gyroscope_cb e ad = .ok
      { ad with
        swing_data := fun r c =>
          if r = ad.gyro_count ∧ c = 6 then e.values 2
          else if r = ad.gyro_count ∧ c = 5 then e.values 1
          else if r = ad.gyro_count ∧ c = 4 then e.values 0
          else ad.swing_data r c
        gyro_count := ad.gyro_count + 1 } := by
  simp only [gyroscope_cb, set_swing_data, COLUMNS, bind, Except.bind, pure, Except.pure,
    h, true_and, Nat.reduceLT, if_true]

/-! ### C7 -/

/-- C7: in a state with `accel_count < C`, `accelerometer_cb` succeeds and changes only
columns 0..3 of row `accel_count`, `accel_count` and `timer`: columns 4..6 of every row,
every other row, `gyro_count` and the sensor handles are as before.  In a state with
`gyro_count < C`, `gyroscope_cb` succeeds and changes only columns 4..6 of row
`gyro_count` and `gyro_count`: columns 0..3 of every row, every other row, `accel_count`,
`timer` and the sensor handles are as before. -/
theorem callbacks_frame {F : Type} (fm : float_model F) (ad : appdata_s F)
    (e : sensor_event_s F) :
    (ad.accel_count < C →
      ∃ s, accelerometer_cb fm e ad = .ok s ∧
        s.gyro_count = ad.gyro_count ∧
        s.accelerometer = ad.accelerometer ∧
        s.accelerometer_listener = ad.accelerometer_listener ∧
        s.gyroscope = ad.gyroscope ∧
        s.gyroscope_listener = ad.gyroscope_listener ∧
        (∀ i j, i ≠ ad.accel_count ∨ 4 ≤ j → s.swing_data i j = ad.swing_data i j)) ∧
    (ad.gyro_count < C →
      ∃ s, gyroscope_cb e ad = .ok s ∧
        s.accel_count = ad.accel_count ∧
        s.timer = ad.timer ∧
        s.accelerometer = ad.accelerometer ∧
        s.accelerometer_listener = ad.accelerometer_listener ∧
        s.gyroscope = ad.gyroscope ∧
        s.gyroscope_listener = ad.gyroscope_listener ∧
        (∀ i j, i ≠ ad.gyro_count ∨ j < 4 ∨ 7 ≤ j → s.swing_data i j = ad.swing_data i j)) := by
  constructor
  · intro h
    refine ⟨_, accelerometer_cb_ok fm e ad h, ?_⟩
    · refine ⟨rfl, rfl, rfl, rfl, rfl, ?_⟩
      intro i j hij
      simp only
      rcases hij with hi | hj
      · simp [hi]
      · have h0 : j ≠ 0 := by omega
        have h1 : j ≠ 1 := by omega
        have h2 : j ≠ 2 := by omega
        have h3 : j ≠ 3 := by omega
        simp [h0, h1, h2, h3]
  · intro h
    refine ⟨_, gyroscope_cb_ok e ad h, ?_⟩
    · refine ⟨rfl, rfl, rfl, rfl, rfl, rfl, ?_⟩
      intro i j hij
      simp only
      rcases hij with hi | hj
      · simp [hi]
      · have h4 : j ≠ 4 := by omega
        have h5 : j ≠ 5 := by omega
        have h6 : j ≠ 6 := by omega
        simp [h4, h5, h6]

/-- Witness for C7: the zero-initialised binary32 state, whose cursors are both below
`C`. -/
theorem callbacks_frame_witness :
    (∃ s, accelerometer_cb binary32 (event_xyz 1 2 3) (appdata_zero binary32) = .ok s ∧
        s.gyro_count = (appdata_zero binary32).gyro_count ∧
        (∀ i j, i ≠ (appdata_zero binary32).accel_count ∨ 4 ≤ j →
          s.swing_data i j = (appdata_zero binary32).swing_data i j)) ∧
    (∃ s, gyroscope_cb (event_xyz 4 5 6) (appdata_zero binary32) = .ok s ∧
        s.accel_count = (appdata_zero binary32).accel_count ∧
        s.timer = (appdata_zero binary32).timer ∧
        (∀ i j, i ≠ (appdata_zero binary32).gyro_count ∨ j < 4 ∨ 7 ≤ j →
          s.swing_data i j = (appdata_zero binary32).swing_data i j)) := by
  obtain ⟨s, h1, h2, _, _, _, _, h3⟩ :=
    (callbacks_frame binary32 (appdata_zero binary32) (event_xyz 1 2 3)).1 (by decide)
  obtain ⟨t, k1, k2, k3, _, _, _, _, k4⟩ :=
    (callbacks_frame binary32 (appdata_zero binary32) (event_xyz 4 5 6)).2 (by decide)
  exact ⟨⟨s, h1, h2, h3⟩, ⟨t, k1, k2, k3, k4⟩⟩

/-! ### Export lemmas -/

theorem sprintf_row_ok {F : Type} (fm : float_model F) (ad : appdata_s F) (i : Nat)
    (h : i < C) (hf : (row_text fm ad i).utf8ByteSize < DATA_STRING_SIZE) :
    sprintf_row fm ad i = .ok (row_text fm ad i) := by
  have hf2 : (fm.printf_f (ad.swing_data i 0) ++ ", " ++ fm.printf_f (ad.swing_data i 1) ++
      ", " ++ fm.printf_f (ad.swing_data i 2) ++ ", " ++ fm.printf_f (ad.swing_data i 3) ++
      ", " ++ fm.printf_f (ad.swing_data i 4) ++ ", " ++ fm.printf_f (ad.swing_data i 5) ++
      ", " ++ fm.printf_f (ad.swing_data i 6) ++ ",").utf8ByteSize < DATA_STRING_SIZE := hf
  simp only [sprintf_row, get_swing_data, COLUMNS, row_text, bind, Except.bind, pure,
    Except.pure, h, true_and, Nat.reduceLT, if_true, hf2]

theorem sprintf_row_too_long {F : Type} (fm : float_model F) (ad : appdata_s F) (i : Nat)
    (hf : ¬ (row_text fm ad i).utf8ByteSize < DATA_STRING_SIZE) :
    sprintf_row fm ad i = .error Fault.out_of_bounds := by
  have hf2 : ¬ (fm.printf_f (ad.swing_data i 0) ++ ", " ++ fm.printf_f (ad.swing_data i 1) ++
      ", " ++ fm.printf_f (ad.swing_data i 2) ++ ", " ++ fm.printf_f (ad.swing_data i 3) ++
      ", " ++ fm.printf_f (ad.swing_data i 4) ++ ", " ++ fm.printf_f (ad.swing_data i 5) ++
      ", " ++ fm.printf_f (ad.swing_data i 6) ++ ",").utf8ByteSize < DATA_STRING_SIZE := hf
  by_cases h : i < C
  · simp only [sprintf_row, get_swing_data, COLUMNS, bind, Except.bind, pure,
      Except.pure, h, true_and, Nat.reduceLT, if_true, hf2, if_false]
  · simp [sprintf_row, get_swing_data, h, bind, Except.bind]

theorem save_data_loop_ok {F : Type} (fm : float_model F) (ad : appdata_s F) (n : Nat) :
    ∀ (i : Nat) (fp : List String), i + n ≤ C →
      (∀ k, i ≤ k → k < i + n → (row_text fm ad k).utf8ByteSize < DATA_STRING_SIZE) →
      save_data_loop fm ad n i fp
        = .ok (fp ++ (List.range' i n).map (fun k => row_text fm ad k ++ "\n")) := by
  induction n with
  | zero => intro i fp _ _; simp [save_data_loop]
  | succ n ih =>
    intro i fp h hfit
    have hi : i < C := by omega
    simp only [save_data_loop, sprintf_row_ok fm ad i hi (hfit i (Nat.le_refl i) (by omega)),
      bind, Except.bind]
    rw [ih (i + 1) _ (by omega) (fun k hk1 hk2 => hfit k (by omega) (by omega))]
    simp [List.range'_succ]

theorem save_data_ok {F : Type} (fm : float_model F) (ad : appdata_s F) (fs : filesystem)
    (h : ad.gyro_count ≤ C) (hfit : rows_fit fm ad) :
    save_data fm ad fs = .ok
      { data_csv := some ((List.range ad.gyro_count).map (fun k => row_text fm ad k ++ "\n"))
        opened := fs.opened + 1 } := by
  simp only [save_data, bind, Except.bind, pure, Except.pure]
  rw [save_data_loop_ok fm ad ad.gyro_count 0 [] (by omega)
    (fun k _ hk => hfit k (by omega))]
  simp [List.range_eq_range']

/-- A row of seven values `-FLT_MAX` formats to 303 bytes: `sprintf` runs past the end of
`data_string` and `save_data` has no defined outcome. -/
theorem save_data_long_row_faults :
    save_data binary32
      { appdata_zero binary32 with
        swing_data := fun _ _ =>
          { negative := true, magnitude := 340282346638528859811704183484516925440 }
        gyro_count := 1 } fs_empty
      = .error Fault.out_of_bounds := by
  simp only [save_data, save_data_loop, bind, Except.bind]
  rw [sprintf_row_too_long binary32 _ 0 (by decide!)]

theorem rows_fit_of_forall_lt {F : Type} (fm : float_model F) (ad : appdata_s F) (n : Nat)
    (hn : ad.gyro_count = n)
    (h : ∀ i, i < n → (row_text fm ad i).utf8ByteSize < DATA_STRING_SIZE) :
    rows_fit fm ad := by
  intro i hi
  exact h i (hn ▸ hi)

/-! ### C4 -/

/-- C4: `save_data` on a state with `gyro_count ≤ C` whose formatted rows fit
`data_string` writes exactly `gyro_count` rows, row `i` of the file being row `i` of
`swing_data`, whatever `accel_count` is (any float arithmetic).  In binary32, after 2
gyroscope events and 5 accelerometer events from the zero-initialised state
(`accel_count = 5`, `gyro_count = 2`) exactly rows 0 and 1 are written, in that order. -/
theorem export_row_count :
    (∀ {F : Type} (fm : float_model F) (ad : appdata_s F) (fs : filesystem),
      ad.gyro_count ≤ C → rows_fit fm ad →
      ∃ rows, save_data fm ad fs = .ok { data_csv := some rows, opened := fs.opened + 1 } ∧
        rows.length = ad.gyro_count ∧
        ∀ i, i < ad.gyro_count → rows[i]? = some (row_text fm ad i ++ "\n")) ∧
    (∃ s, deliver binary32 (appdata_zero binary32)
        [.gyroscope (event_xyz 4 5 6), .gyroscope (event_xyz 4 5 6),
         .accelerometer (event_xyz 1 2 3), .accelerometer (event_xyz 1 2 3),
         .accelerometer (event_xyz 1 2 3), .accelerometer (event_xyz 1 2 3),
         .accelerometer (event_xyz 1 2 3)] = .ok s ∧
      s.accel_count = 5 ∧ s.gyro_count = 2 ∧
      save_data binary32 s fs_empty = .ok
        { data_csv := some [row_text binary32 s 0 ++ "\n", row_text binary32 s 1 ++ "\n"]
          opened := 1 } ∧
      row_text binary32 s 0
        = "0.000000, 1.000000, 2.000000, 3.000000, 4.000000, 5.000000, 6.000000," ∧
      row_text binary32 s 1
        = "0.050000, 1.000000, 2.000000, 3.000000, 4.000000, 5.000000, 6.000000,") := by
  constructor
  · intro F fm ad fs h hfit
    refine ⟨_, save_data_ok fm ad fs h hfit, by simp, ?_⟩
    intro i hi
    simp [List.getElem?_map, List.getElem?_range hi]
  · refine ⟨_, deliver_zero binary32 _ (by decide) (by decide), rfl, rfl, ?_, ?_, ?_⟩
    · rw [save_data_ok binary32 _ _ (by decide)
        (rows_fit_of_forall_lt binary32 _ 2 rfl (by
          intro i hi
          interval_cases i <;> decide!))]
      rfl
    · decide!
    · decide!

/-- Witness for C4: the binary32 state after one accelerometer and one gyroscope
event. -/
theorem export_row_count_witness :
    ∃ rows, save_data binary32 (recorded binary32 [event_xyz 1 2 3] [event_xyz 4 5 6]) fs_empty
        = .ok { data_csv := some rows, opened := fs_empty.opened + 1 } ∧
      rows.length = 1 ∧
      ∀ i, i < 1 → rows[i]? =
        some (row_text binary32 (recorded binary32 [event_xyz 1 2 3] [event_xyz 4 5 6]) i
          ++ "\n") :=
  export_row_count.1 binary32 (recorded binary32 [event_xyz 1 2 3] [event_xyz 4 5 6]) fs_empty
    (by decide)
    (rows_fit_of_forall_lt binary32 _ 1 rfl (by
      intro i hi
      interval_cases i
      decide!))

/-! ### C3 -/

/-- The file written in binary32 for three accelerometer events `(1,2,3)` followed by
three gyroscope events `(4,5,6)` from the zero-initialised state. -/
theorem save_data_three_rows :
    (deliver binary32 (appdata_zero binary32)
        [.accelerometer (event_xyz 1 2 3), .accelerometer (event_xyz 1 2 3),
         .accelerometer (event_xyz 1 2 3), .gyroscope (event_xyz 4 5 6),
         .gyroscope (event_xyz 4 5 6), .gyroscope (event_xyz 4 5 6)]).bind
      (fun s => save_data binary32 s fs_empty)
    = .ok
      { data_csv := some
          ["0.000000, 1.000000, 2.000000, 3.000000, 4.000000, 5.000000, 6.000000,\n",
           "0.050000, 1.000000, 2.000000, 3.000000, 4.000000, 5.000000, 6.000000,\n",
           "0.100000, 1.000000, 2.000000, 3.000000, 4.000000, 5.000000, 6.000000,\n"]
        opened := 1 } := by
  rw [deliver_zero binary32 _ (by decide) (by decide)]
  simp only [Except.bind]
  rw [save_data_ok binary32 _ _ (by decide)
    (rows_fit_of_forall_lt binary32 _ 3 rfl (by
      intro i hi
      interval_cases i <;> decide!))]
  refine congrArg Except.ok ?_
  decide!

/-- C3 (counterexample): in binary32, for three accelerometer events `(1,2,3)` followed by
three gyroscope events `(4,5,6)` from the zero-initialised state, the first line
`save_data` writes is not
`0.000000, 1.000000, 2.000000, 3.000000, 4.000000, 5.000000, 6.000000`:
a comma follows the seventh field. -/
theorem csv_first_line_not_as_claimed :
    ¬ ∃ rest opened,
      (deliver binary32 (appdata_zero binary32)
          [.accelerometer (event_xyz 1 2 3), .accelerometer (event_xyz 1 2 3),
           .accelerometer (event_xyz 1 2 3), .gyroscope (event_xyz 4 5 6),
           .gyroscope (event_xyz 4 5 6), .gyroscope (event_xyz 4 5 6)]).bind
        (fun s => save_data binary32 s fs_empty)
      = .ok
        { data_csv := some
            ("0.000000, 1.000000, 2.000000, 3.000000, 4.000000, 5.000000, 6.000000\n" :: rest)
          opened := opened } := by
  rintro ⟨rest, opened, h⟩
  rw [save_data_three_rows] at h
  simp only [Except.ok.injEq, filesystem.mk.injEq, Option.some.injEq, List.cons.injEq] at h
  exact absurd h.1.1 (by decide)

/-- C3 (amended): in any float arithmetic, for a state with `gyro_count ≤ C` whose
formatted rows fit `data_string`, every line written by `save_data` is the 7 fields
`t, ax, ay, az, gx, gy, gz` of one row in that order, each converted by `%f`, separated by
`", "` and with a comma after the seventh field; there is no header line.  In binary32,
for three accelerometer events `(1,2,3)` followed by three gyroscope events `(4,5,6)`
from the zero-initialised state the file has exactly three lines, the first being
`0.000000, 1.000000, 2.000000, 3.000000, 4.000000, 5.000000, 6.000000,`. -/
theorem csv_lines_with_trailing_comma :
    (∀ {F : Type} (fm : float_model F) (ad : appdata_s F) (fs : filesystem),
      ad.gyro_count ≤ C → rows_fit fm ad →
      save_data fm ad fs = .ok
        { data_csv := some ((List.range ad.gyro_count).map (fun i =>
            fm.printf_f (ad.swing_data i 0) ++ ", " ++ fm.printf_f (ad.swing_data i 1) ++ ", " ++
            fm.printf_f (ad.swing_data i 2) ++ ", " ++ fm.printf_f (ad.swing_data i 3) ++ ", " ++
            fm.printf_f (ad.swing_data i 4) ++ ", " ++ fm.printf_f (ad.swing_data i 5) ++ ", " ++
            fm.printf_f (ad.swing_data i 6) ++ "," ++ "\n"))
          opened := fs.opened + 1 }) ∧
    (deliver binary32 (appdata_zero binary32)
        [.accelerometer (event_xyz 1 2 3), .accelerometer (event_xyz 1 2 3),
         .accelerometer (event_xyz 1 2 3), .gyroscope (event_xyz 4 5 6),
         .gyroscope (event_xyz 4 5 6), .gyroscope (event_xyz 4 5 6)]).bind
      (fun s => save_data binary32 s fs_empty)
    = .ok
      { data_csv := some
          ["0.000000, 1.000000, 2.000000, 3.000000, 4.000000, 5.000000, 6.000000,\n",
           "0.050000, 1.000000, 2.000000, 3.000000, 4.000000, 5.000000, 6.000000,\n",
           "0.100000, 1.000000, 2.000000, 3.000000, 4.000000, 5.000000, 6.000000,\n"]
        opened := 1 } :=
  ⟨fun fm ad fs h hfit => save_data_ok fm ad fs h hfit, save_data_three_rows⟩

/-- Witness for C3 (amended): the general part at the binary32 state after one
accelerometer event `(-1,2,3)` and one gyroscope event `(4,5,6)`. -/
theorem csv_lines_with_trailing_comma_witness :
    save_data binary32
        (recorded binary32 [event_xyz (float32.of_rat (-1)) 2 3] [event_xyz 4 5 6]) fs_empty
      = .ok
        { data_csv := some
            ["0.000000, -1.000000, 2.000000, 3.000000, 4.000000, 5.000000, 6.000000,\n"]
          opened := 1 } := by
  rw [csv_lines_with_trailing_comma.1 binary32
    (recorded binary32 [event_xyz (float32.of_rat (-1)) 2 3] [event_xyz 4 5 6]) fs_empty
    (by decide)
    (rows_fit_of_forall_lt binary32 _ 1 rfl (by
      intro i hi
      interval_cases i
      decide!))]
  refine congrArg Except.ok ?_
  decide!

/-! ### C10 -/

/-- C10 (counterexample): in binary32, after 34 accelerometer events `(1,2,3)` and 34
gyroscope events `(4,5,6)` from the zero-initialised state, the time field of row 33 is
`13841199 / 2^23 = 1.64999950…`: it is not `33 * 0.05`, nor the binary32 value
nearest to it, and the exported row reads `1.649999`, not `1.650000`.  Already row 1
holds the binary32 value of `0.05f`, `13421773 / 2^28`, not `0.05`. -/
theorem timestamps_drift_in_binary32 :
    ∃ s, deliver binary32 (appdata_zero binary32)
        (List.replicate 34 (sensor_input.accelerometer (event_xyz 1 2 3)) ++
          List.replicate 34 (sensor_input.gyroscope (event_xyz 4 5 6))) = .ok s ∧
      (s.swing_data 33 0).to_rat = 13841199 / 8388608 ∧
      (s.swing_data 33 0).to_rat ≠ 33 * 0.05 ∧
      s.swing_data 33 0 ≠ float32.of_rat (33 * 0.05) ∧
      row_text binary32 s 33
        = "1.649999, 1.000000, 2.000000, 3.000000, 4.000000, 5.000000, 6.000000," ∧
      (s.swing_data 1 0).to_rat = 13421773 / 268435456 ∧
      (s.swing_data 1 0).to_rat ≠ 1 * 0.05 := by
  refine ⟨_, deliver_zero binary32 _ (by decide) (by decide), ?_, ?_, ?_, ?_, ?_, ?_⟩
  · decide!
  · have h : (((recorded binary32
        (accel_events (List.replicate 34 (sensor_input.accelerometer (event_xyz 1 2 3)) ++
          List.replicate 34 (sensor_input.gyroscope (event_xyz 4 5 6))))
        (gyro_events (List.replicate 34 (sensor_input.accelerometer (event_xyz 1 2 3)) ++
          List.replicate 34 (sensor_input.gyroscope (event_xyz 4 5 6))))).swing_data 33 0).to_rat
        = 13841199 / 8388608) := by decide!
    rw [h]
    norm_num
  · decide!
  · decide!
  · decide!
  · have h : (((recorded binary32
        (accel_events (List.replicate 34 (sensor_input.accelerometer (event_xyz 1 2 3)) ++
          List.replicate 34 (sensor_input.gyroscope (event_xyz 4 5 6))))
        (gyro_events (List.replicate 34 (sensor_input.accelerometer (event_xyz 1 2 3)) ++
          List.replicate 34 (sensor_input.gyroscope (event_xyz 4 5 6))))).swing_data 1 0).to_rat
        = 13421773 / 268435456) := by decide!
    rw [h]
    norm_num

/-- C10 (amended): in any float arithmetic, from the zero-initialised state, two
deliveries with the same accelerometer subsequence (`N ≤ C` events) and the same gyroscope
subsequence (`M ≤ C` events), in any interleaving, succeed and end in the same state.  In
it, whenever the `i`-th accelerometer event `a` and the `i`-th gyroscope event `g` both
exist, row `i` is `(t_i, a.x, a.y, a.z, g.x, g.y, g.z)` with `t_i` the value of `timer`
after `i` additions of `0.05f` to zero; for `N ≤ i < M` the time and accelerometer fields
of row `i` are the zero value; and `save_data` exports rows `0..M-1` of that state when
they fit `data_string`.  In exact arithmetic `t_i = i * 0.05`. -/
theorem pairing_independent_of_interleaving {F : Type} (fm : float_model F)
    (evs evs2 : List (sensor_input F))
    (ha : accel_events evs2 = accel_events evs) (hg : gyro_events evs2 = gyro_events evs)
    (hN : (accel_events evs).length ≤ C) (hM : (gyro_events evs).length ≤ C) :
    ∃ s, deliver fm (appdata_zero fm) evs = .ok s ∧
      deliver fm (appdata_zero fm) evs2 = .ok s ∧
      (∀ i a g, (accel_events evs)[i]? = some a → (gyro_events evs)[i]? = some g →
        s.swing_data i 0 = timer_after fm i ∧
        s.swing_data i 1 = a.values 0 ∧ s.swing_data i 2 = a.values 1 ∧
        s.swing_data i 3 = a.values 2 ∧ s.swing_data i 4 = g.values 0 ∧
        s.swing_data i 5 = g.values 1 ∧ s.swing_data i 6 = g.values 2) ∧
      (∀ i, (accel_events evs).length ≤ i → i < (gyro_events evs).length →
        s.swing_data i 0 = fm.zero ∧ s.swing_data i 1 = fm.zero ∧
        s.swing_data i 2 = fm.zero ∧ s.swing_data i 3 = fm.zero) ∧
      (∀ fs, rows_fit fm s → save_data fm s fs = .ok
        { data_csv := some
            ((List.range (gyro_events evs).length).map (fun i => row_text fm s i ++ "\n"))
          opened := fs.opened + 1 }) ∧
      (∀ i : Nat, timer_after exact_arith i = (i : ℚ) * 0.05) := by
  refine ⟨_, deliver_zero fm evs hN hM, ?_, ?_, ?_, ?_, timer_after_exact⟩
  · rw [← ha, ← hg]
    exact deliver_zero fm evs2 (by rw [ha]; exact hN) (by rw [hg]; exact hM)
  · intro i a g hia hig
    have hi : i < (accel_events evs).length := by
      rcases List.getElem?_eq_some.mp hia with ⟨h, _⟩
      exact h
    simp [recorded, axis, hia, hig, hi]
  · intro i hNi _
    have hnone : (accel_events evs)[i]? = none := List.getElem?_eq_none hNi
    have hlt : ¬ i < (accel_events evs).length := by omega
    simp [recorded, axis, hnone, hlt]
  · intro fs hfit
    exact save_data_ok fm _ fs hM hfit

/-- Witness for C10 (amended): two interleavings of two accelerometer events and one
gyroscope event in binary32. -/
theorem pairing_independent_of_interleaving_witness :
    ∃ s,
      deliver binary32 (appdata_zero binary32)
        [.accelerometer (event_xyz 1 2 3), .gyroscope (event_xyz 4 5 6),
         .accelerometer (event_xyz 7 8 9)] = .ok s ∧
      deliver binary32 (appdata_zero binary32)
        [.gyroscope (event_xyz 4 5 6), .accelerometer (event_xyz 1 2 3),
         .accelerometer (event_xyz 7 8 9)] = .ok s ∧
      s.swing_data 0 0 = timer_after binary32 0 ∧
      s.swing_data 0 1 = 1 ∧ s.swing_data 0 4 = 4 := by
  obtain ⟨s, h1, h2, h3, _⟩ := pairing_independent_of_interleaving binary32
    [.accelerometer (event_xyz 1 2 3), .gyroscope (event_xyz 4 5 6),
     .accelerometer (event_xyz 7 8 9)]
    [.gyroscope (event_xyz 4 5 6), .accelerometer (event_xyz 1 2 3),
     .accelerometer (event_xyz 7 8 9)]
    rfl rfl (by decide) (by decide)
  obtain ⟨k0, k1, _, _, k4, _, _⟩ := h3 0 (event_xyz 1 2 3) (event_xyz 4 5 6) rfl rfl
  exact ⟨s, h1, h2, k0, k1, k4⟩

/-! ### Button lemmas -/

theorem sensor_listener_start_ad {F : Type} (l : Option sensor_type_e) (w : world F) :
    (sensor_listener_start l w).ad = w.ad := by
  rcases l with _ | t
  · rfl
  · cases t <;> rfl

theorem sensor_listener_start_fs {F : Type} (l : Option sensor_type_e) (w : world F) :
    (sensor_listener_start l w).fs = w.fs := by
  rcases l with _ | t
  · rfl
  · cases t <;> rfl

theorem button_start_frame {F : Type} (w : world F) :
    (button_start w).ad = w.ad ∧ (button_start w).button_text = "STOP" ∧
    (button_start w).fs = w.fs := by
  refine ⟨?_, rfl, ?_⟩
  · simp only [button_start, elm_object_text_set, sensor_listener_start_ad]
  · simp only [button_start, elm_object_text_set, sensor_listener_start_fs]

theorem exists_ok_of_map {ε α β : Type} (x : Except ε α) (f : α → β) (b : β)
    (h : x.toOption.map f = some b) : ∃ a, x = .ok a ∧ f a = b := by
  cases x with
  | error e => simp [Except.toOption] at h
  | ok a =>
    refine ⟨a, rfl, ?_⟩
    simpa [Except.toOption] using h

/-! ### C2 -/

/-- C2 (counterexample): in binary32 on a device with both sensors, after a first session
of one accelerometer and one gyroscope event has been stopped, the next click takes the
start branch and leaves `accel_count = 1`, `gyro_count = 1` and `timer = 0.05f`: nothing
is reset to `0`.  A second session of one accelerometer and one gyroscope event is then
recorded in row 1 with timestamp `0.05`, and its stop exports two rows, the first session's
row included. -/
theorem restart_does_not_reset :
    (∃ w, run binary32 (app_create binary32 device_full fs_empty)
        [.click, .sensor (.accelerometer (event_xyz 1 2 3)),
         .sensor (.gyroscope (event_xyz 4 5 6)), .click, .click] = .ok w ∧
      w.button_text = "STOP" ∧
      w.ad.accel_count = 1 ∧ w.ad.gyro_count = 1 ∧ w.ad.timer = float32.of_rat 0.05 ∧
      ¬ (w.ad.accel_count = 0 ∧ w.ad.gyro_count = 0 ∧ w.ad.timer = binary32.zero)) ∧
    (∃ w, run binary32 (app_create binary32 device_full fs_empty)
        [.click, .sensor (.accelerometer (event_xyz 1 2 3)),
         .sensor (.gyroscope (event_xyz 4 5 6)), .click, .click,
         .sensor (.accelerometer (event_xyz 7 8 9)),
         .sensor (.gyroscope (event_xyz 10 11 12)), .click] = .ok w ∧
      w.fs =
        { data_csv := some
            ["0.000000, 1.000000, 2.000000, 3.000000, 4.000000, 5.000000, 6.000000,\n",
             "0.050000, 7.000000, 8.000000, 9.000000, 10.000000, 11.000000, 12.000000,\n"]
          opened := 2 }) := by
  constructor
  · have key : (run binary32 (app_create binary32 device_full fs_empty)
        [.click, .sensor (.accelerometer (event_xyz 1 2 3)),
         .sensor (.gyroscope (event_xyz 4 5 6)), .click, .click]).toOption.map
          (fun w => (w.button_text, w.ad.accel_count, w.ad.gyro_count, w.ad.timer))
        = some ("STOP", 1, 1, float32.of_rat 0.05) := by decide!
    obtain ⟨w, hw, hf⟩ := exists_ok_of_map _ _ _ key
    simp only [Prod.mk.injEq] at hf
    obtain ⟨h1, h2, h3, h4⟩ := hf
    refine ⟨w, hw, h1, h2, h3, h4, ?_⟩
    intro h
    rw [h2] at h
    exact absurd h.1 (by decide)
  · have key : (run binary32 (app_create binary32 device_full fs_empty)
        [.click, .sensor (.accelerometer (event_xyz 1 2 3)),
         .sensor (.gyroscope (event_xyz 4 5 6)), .click, .click,
         .sensor (.accelerometer (event_xyz 7 8 9)),
         .sensor (.gyroscope (event_xyz 10 11 12)), .click]).toOption.map (fun w => w.fs)
        = some
          { data_csv := some
              ["0.000000, 1.000000, 2.000000, 3.000000, 4.000000, 5.000000, 6.000000,\n",
               "0.050000, 7.000000, 8.000000, 9.000000, 10.000000, 11.000000, 12.000000,\n"]
            opened := 2 } := by decide!
    exact exists_ok_of_map _ _ _ key

/-- C2 (amended): in any float arithmetic, when the label is `"START"`,
`_button_click_cb` takes the start branch, which leaves `accel_count`, `gyro_count`,
`timer` and `swing_data` (all of `appdata_s`) and the file as they are and sets the label
to `"STOP"`.  The cursors are `0`, and the timer and `swing_data` are zero, when
`app_create` returns, that is at the first start after launch. -/
theorem start_leaves_recording_untouched {F : Type} (fm : float_model F) (w : world F)
    (h : w.button_text = "START") :
    button_click_cb fm w = .ok (button_start w) ∧
    (button_start w).ad = w.ad ∧
    (button_start w).fs = w.fs ∧
    (button_start w).button_text = "STOP" ∧
    (∀ (d : device) (fs : filesystem),
      (app_create fm d fs).button_text = "START" ∧
      (app_create fm d fs).ad.accel_count = 0 ∧ (app_create fm d fs).ad.gyro_count = 0 ∧
      (app_create fm d fs).ad.timer = fm.zero ∧
      ∀ i j, (app_create fm d fs).ad.swing_data i j = fm.zero) := by
  obtain ⟨h1, h2, h3⟩ := button_start_frame w
  refine ⟨?_, h1, h3, h2, ?_⟩
  · simp [button_click_cb, h]
  · intro d fs
    simp [app_create, register_gyroscope, register_accelerometer, appdata_zero]

/-- Witness for C2 (amended): the binary32 world right after `app_create`. -/
theorem start_leaves_recording_untouched_witness :
    button_click_cb binary32 (app_create binary32 device_full fs_empty)
      = .ok (button_start (app_create binary32 device_full fs_empty)) ∧
    (button_start (app_create binary32 device_full fs_empty)).ad
      = (app_create binary32 device_full fs_empty).ad ∧
    (button_start (app_create binary32 device_full fs_empty)).fs
      = (app_create binary32 device_full fs_empty).fs ∧
    (button_start (app_create binary32 device_full fs_empty)).button_text = "STOP" := by
  obtain ⟨h1, h2, h3, h4, _⟩ :=
    start_leaves_recording_untouched binary32 (app_create binary32 device_full fs_empty) rfl
  exact ⟨h1, h2, h3, h4⟩

/-! ### C8 -/

/-- C9 (counterexample): on a device whose gyroscope is unsupported and has no default
sensor, registration followed by the start click ends with the same label and the same
file as on a device with both sensors: nothing is surfaced. -/
theorem unavailable_gyroscope_same_outcome :
    button_click_cb binary32 (app_create binary32 device_no_gyroscope fs_empty)
      = .ok (button_start (app_create binary32 device_no_gyroscope fs_empty)) ∧
    button_click_cb binary32 (app_create binary32 device_full fs_empty)
      = .ok (button_start (app_create binary32 device_full fs_empty)) ∧
    visible (button_start (app_create binary32 device_no_gyroscope fs_empty))
      = visible (button_start (app_create binary32 device_full fs_empty)) := by
  refine ⟨rfl, rfl, rfl⟩

/-- C9 (amended): an unavailable sensor is not reported.  `register_accelerometer` and
`register_gyroscope` return nothing and do not depend on what `sensor_is_supported`
answers; when the device has no default sensor of a kind they leave that sensor handle
and its listener null.  On every device the following click takes the start branch, sets
the label to `"STOP"` and leaves the file alone, exactly as on a device with both
sensors; the listener of a missing sensor is simply not started. -/
theorem unavailable_sensor_not_reported {F : Type} (fm : float_model F) (d : device)
    (fs : filesystem) :
    (∀ (d2 : device) (ad : appdata_s F), d2.has_default = d.has_default →
      register_accelerometer d2 ad = register_accelerometer d ad ∧
      register_gyroscope d2 ad = register_gyroscope d ad) ∧
    button_click_cb fm (app_create fm d fs) = .ok (button_start (app_create fm d fs)) ∧
    visible (button_start (app_create fm d fs)) = ("STOP", fs) ∧
    visible (button_start (app_create fm d fs))
      = visible (button_start (app_create fm device_full fs)) ∧
    (d.has_default .SENSOR_GYROSCOPE = false →
      (app_create fm d fs).ad.gyroscope = none ∧
      (app_create fm d fs).ad.gyroscope_listener = none ∧
      (button_start (app_create fm d fs)).gyroscope_started = false) ∧
    (d.has_default .SENSOR_ACCELEROMETER = false →
      (app_create fm d fs).ad.accelerometer = none ∧
      (app_create fm d fs).ad.accelerometer_listener = none ∧
      (button_start (app_create fm d fs)).accelerometer_started = false) := by
  have hv : ∀ d0 : device, visible (button_start (app_create fm d0 fs)) = ("STOP", fs) := by
    intro d0
    obtain ⟨_, h2, h3⟩ := button_start_frame (app_create fm d0 fs)
    show ((button_start (app_create fm d0 fs)).button_text,
      (button_start (app_create fm d0 fs)).fs) = ("STOP", fs)
    rw [h2, h3]
    rfl
  refine ⟨?_, ?_, hv d, ?_, ?_, ?_⟩
  · intro d2 ad hd
    simp [register_accelerometer, register_gyroscope, sensor_get_default_sensor, hd]
  · simp [button_click_cb, app_create]
  · rw [hv d, hv device_full]
  · intro hg
    cases ha : d.has_default .SENSOR_ACCELEROMETER <;>
      simp [app_create, register_gyroscope, register_accelerometer, sensor_get_default_sensor,
        sensor_create_listener, appdata_zero, button_start, sensor_listener_start,
        elm_object_text_set, hg, ha]
  · intro ha
    cases hg : d.has_default .SENSOR_GYROSCOPE <;>
      simp [app_create, register_gyroscope, register_accelerometer, sensor_get_default_sensor,
        sensor_create_listener, appdata_zero, button_start, sensor_listener_start,
        elm_object_text_set, hg, ha]


end SwingMetrics
